import Mathlib

/-!
# Firmament: the shortest-job-first cost model

A shallow embedding of `src/scheduling/sjf_cost_model.cc`.

* `uint64_t` values are natural numbers reduced modulo `2 ^ 64`; the value a
  function returns as `Cost_t` is the signed reading of that 64-bit word.
* `CHECK_*` and `LOG(FATAL)` abort the process; a function that can reach one
  returns `Except Fatal _`.
* What the translation unit only uses (the clock, `boost::hash_combine`,
  `rand_r`, the constant `WAIT_TIME_MULTIPLIER`, the knowledge base) is taken
  as a parameter.
-/

namespace firmament

/-! ## Types of `base/types.h` that the cost model uses -/

/-- Task identifiers are `uint64_t`. -/
abbrev TaskID_t := Nat

/-- Task equivalence classes are `uint64_t` keys. -/
abbrev TaskEquivClass_t := Nat

/-- Resource identifiers (UUIDs), as numbers. -/
abbrev ResourceID_t := Nat

/-- Job identifiers (UUIDs), as numbers. -/
abbrev JobID_t := Nat

/-- Modelled from the spec: the declaration of `Cost_t` is in a header that is
not part of the sources; the spec says a cost is a signed 64-bit scalar. -/
abbrev Cost_t := Int

/-! ## 64-bit machine arithmetic -/

/-- The value of a number once stored in a `uint64_t`. -/
def toU64 (n : Nat) : Nat := n % 2 ^ 64

/-- Subtraction `a - b` of two `uint64_t`, which wraps around. -/
def subU64 (a b : Nat) : Nat := (toU64 a + (2 ^ 64 - toU64 b)) % 2 ^ 64

/-- Multiplication `a * b` of two `uint64_t`, which wraps around. -/
def mulU64 (a b : Nat) : Nat := (toU64 a * toU64 b) % 2 ^ 64

/-- Conversion of a `uint64_t` to `Cost_t` when it is returned: the same 64-bit
word read as a two's complement number. -/
def toCost (u : Nat) : Cost_t :=
  if toU64 u < 2 ^ 63 then (toU64 u : Int) else (toU64 u : Int) - 2 ^ 64

/-! ## Failures -/

/-- The ways in which the cost model aborts. -/
inductive Fatal where
  /-- A `CHECK_NOTNULL` on a task descriptor failed. -/
  | CHECK_NOTNULL
  /-- The check `CHECK_GT(equiv_classes->size(), 0)` failed. -/
  | CHECK_GT
  /-- The check `CHECK_GE(leaf_res_ids_->size(), num_pref_arcs)` failed. -/
  | CHECK_GE
  /-- A `LOG(FATAL)` with the given message. -/
  | LOG_FATAL (msg : String)
  deriving DecidableEq, Repr

/-! ## Data -/

/-- The fields of a task descriptor that the cost model reads (`submit_time`,
`binary`), with the task's identity and name. -/
structure TaskDescriptor where
  uid : TaskID_t
  name : String
  submit_time : Nat
  binary : String
  deriving DecidableEq, Repr

/-- The knowledge base, consulted through `GetAvgRuntimeForTEC` only. -/
structure KnowledgeBase where
  GetAvgRuntimeForTEC : TaskEquivClass_t → Nat

/-- What the translation unit takes from outside: the constant
`WAIT_TIME_MULTIPLIER` of its header, `boost::hash_combine` on strings (seed
and value to new seed) and `rand_r` (seed to value and new seed). -/
structure Externals where
  WAIT_TIME_MULTIPLIER : Nat
  hash_combine : Nat → String → Nat
  rand_r : Nat → Nat × Nat

/-- The members of `SJFCostModel`: the task map (a missing key and a null
pointer are both `none`), the leaf resources in the iteration order of the
set, and the knowledge base. -/
structure SJFCostModel where
  task_map_ : TaskID_t → Option TaskDescriptor
  leaf_res_ids_ : List ResourceID_t
  knowledge_base_ : KnowledgeBase

/-! ## The functions of `sjf_cost_model.cc` -/

/-- Lookup in the task map (`FindPtrOrNull` of `misc/map-util.h`). -/
def FindPtrOrNull (task_map : TaskID_t → Option TaskDescriptor) (task_id : TaskID_t) :
    Option TaskDescriptor :=
  task_map task_id

/-- The descriptor of a task; fatal when there is none. -/
def GetTask (m : SJFCostModel) (task_id : TaskID_t) : Except Fatal TaskDescriptor :=
  match FindPtrOrNull m.task_map_ task_id with
  | none => .error Fatal.CHECK_NOTNULL
  | some td => .ok td

/-- The equivalence classes of a task: one class, the hash of its binary,
combined into the seed 0 and cast to `TaskEquivClass_t`. -/
def GetTaskEquivClasses (x : Externals) (m : SJFCostModel) (task_id : TaskID_t) :
    Except Fatal (List TaskEquivClass_t) :=
  let equiv_classes : List TaskEquivClass_t := []
  match FindPtrOrNull m.task_map_ task_id with
  | none => .error Fatal.CHECK_NOTNULL
  | some td =>
    let hash := toU64 (x.hash_combine 0 td.binary)
    .ok (equiv_classes ++ [toU64 hash])

/-- The scaled wait of a task: the time since its submission (a `uint64_t`
difference of microsecond timestamps) divided by 100000. -/
def wait_time_centamillis (now : Nat) (td : TaskDescriptor) : Nat :=
  let time_since_submit := subU64 now td.submit_time
  time_since_submit / 100000

/-- The scaled average runtime `avg_runtime * 100` of a class, as `uint64_t`. -/
def avg_runtime_scaled (kb : KnowledgeBase) (tec : TaskEquivClass_t) : Nat :=
  let avg_runtime := toU64 (kb.GetAvgRuntimeForTEC tec)
  mulU64 avg_runtime 100

/-- Cost of leaving a task unscheduled, at the timestamp `now`. -/
def TaskToUnscheduledAggCost (x : Externals) (m : SJFCostModel) (now : Nat)
    (task_id : TaskID_t) : Except Fatal Cost_t :=
  match GetTask m task_id with
  | .error e => .error e
  | .ok td =>
    let wait := wait_time_centamillis now td
    match GetTaskEquivClasses x m task_id with
    | .error e => .error e
    | .ok equiv_classes =>
      match equiv_classes with
      | [] => .error Fatal.CHECK_GT
      | front :: _ =>
        .ok (toCost (max (mulU64 x.WAIT_TIME_MULTIPLIER wait)
          (avg_runtime_scaled m.knowledge_base_ front)))

/-- Cost of the arc from the unscheduled aggregator to the sink (`0ULL`). -/
def UnscheduledAggToSinkCost (_job_id : JobID_t) : Cost_t := toCost 0

/-- Cost of running a task anywhere in the cluster. -/
def TaskToClusterAggCost (x : Externals) (m : SJFCostModel) (task_id : TaskID_t) :
    Except Fatal Cost_t :=
  match GetTaskEquivClasses x m task_id with
  | .error e => .error e
  | .ok equiv_classes =>
    match equiv_classes with
    | [] => .error Fatal.CHECK_GT
    | front :: _ => .ok (toCost (avg_runtime_scaled m.knowledge_base_ front))

/-- Cost of running a task on a given resource. -/
def TaskToResourceNodeCost (x : Externals) (m : SJFCostModel) (task_id : TaskID_t)
    (_resource_id : ResourceID_t) : Except Fatal Cost_t :=
  TaskToClusterAggCost x m task_id

/-- Cost of the arc from the cluster aggregator to a resource. -/
def ClusterAggToResourceNodeCost (_target : ResourceID_t) : Cost_t := 0

/-- Cost of an arc between two resources. -/
def ResourceNodeToResourceNodeCost (_source _destination : ResourceID_t) : Cost_t := 0

/-- Cost of the arc from a leaf resource to the sink. -/
def LeafResourceNodeToSinkCost (_resource_id : ResourceID_t) : Cost_t := 0

/-- Cost of keeping a task where it runs. -/
def TaskContinuationCost (_task_id : TaskID_t) : Cost_t := 0

/-- Cost of preempting a task. -/
def TaskPreemptionCost (_task_id : TaskID_t) : Cost_t := 0

/-- Cost of the arc from a task to an equivalence class aggregator. -/
def TaskToEquivClassAggregator (_task_id : TaskID_t) (_tec : TaskEquivClass_t) : Cost_t := 0

/-- Cost of the arc from an equivalence class to a resource. -/
def EquivClassToResourceNode (_tec : TaskEquivClass_t) (_res_id : ResourceID_t) : Cost_t := 0

/-- Cost of the arc between two equivalence classes. -/
def EquivClassToEquivClass (_tec1 _tec2 : TaskEquivClass_t) : Cost_t := 0

/-- The loop of `GetEquivClassPreferenceArcs`: `n` iterations are left, each
draws a number from `rand_r`, advances an iterator from the start of the leaf
set by that number modulo the size of the set, and appends the resource
there. -/
def preferenceArcsLoop (x : Externals) (leaf_res_ids : List ResourceID_t)
    (h : 0 < leaf_res_ids.length) :
    Nat → Nat → List ResourceID_t → List ResourceID_t
  | 0, _, prefered_res => prefered_res
  | n + 1, rand_seed, prefered_res =>
    let drawn := x.rand_r rand_seed
    let index := drawn.1 % leaf_res_ids.length
    preferenceArcsLoop x leaf_res_ids h n drawn.2
      (prefered_res ++ [leaf_res_ids.get ⟨index, Nat.mod_lt _ h⟩])

/-- The resources that get a preference arc from an equivalence class: one,
drawn from the leaf set with a seed that starts at 0 in every call. -/
def GetEquivClassPreferenceArcs (x : Externals) (m : SJFCostModel)
    (_tec : TaskEquivClass_t) : Except Fatal (List ResourceID_t) :=
  let prefered_res : List ResourceID_t := []
  let num_pref_arcs : Nat := 1
  if h : num_pref_arcs ≤ m.leaf_res_ids_.length then
    let rand_seed : Nat := 0
    .ok (preferenceArcsLoop x m.leaf_res_ids_ (Nat.lt_of_lt_of_le Nat.one_pos h)
      num_pref_arcs rand_seed prefered_res)
  else
    .error Fatal.CHECK_GE

/-- Preference arcs of a task: not implemented by this cost model. -/
def GetTaskPreferenceArcs (_task_id : TaskID_t) : Except Fatal (List ResourceID_t) :=
  .error (Fatal.LOG_FATAL "Not implemented!")

/-- Arcs between equivalence classes: not implemented by this cost model. -/
def GetEquivClassToEquivClassesArcs (_tec : TaskEquivClass_t) :
    Except Fatal (List ResourceID_t × List ResourceID_t) :=
  .error (Fatal.LOG_FATAL "Not implemented!")

/-! ## Sample externals and scenarios -/

/-- A sample `hash_combine` on one character code, in the manner of boost:
`seed ^= v + 0x9e3779b9 + (seed << 6) + (seed >> 2)` on a 64-bit `size_t`. -/
def sampleCombineStep (seed v : Nat) : Nat :=
  toU64 (Nat.xor seed (toU64 (v + 2654435769 + toU64 (seed <<< 6) + (seed >>> 2))))

/-- A sample `hash_combine` on strings: the hash of the string is the fold of
`sampleCombineStep` over its characters from seed 0, combined into `seed`. -/
def sampleHashCombine (seed : Nat) (s : String) : Nat :=
  sampleCombineStep seed (s.toList.foldl (fun h c => sampleCombineStep h c.toNat) 0)

/-- A sample `rand_r`, the linear congruential generator of glibc on a 32-bit
seed: three steps, of which 11, 10 and 10 bits are put together. -/
def sampleRandR (seed : Nat) : Nat × Nat :=
  let next1 := (seed * 1103515245 + 12345) % 2 ^ 32
  let result1 := (next1 / 65536) % 2048
  let next2 := (next1 * 1103515245 + 12345) % 2 ^ 32
  let result2 := Nat.xor (result1 <<< 10) ((next2 / 65536) % 1024)
  let next3 := (next2 * 1103515245 + 12345) % 2 ^ 32
  let result3 := Nat.xor (result2 <<< 10) ((next3 / 65536) % 1024)
  (result3, next3)

/-- Sample externals with `WAIT_TIME_MULTIPLIER = 1`. -/
def sampleExternals : Externals :=
  { WAIT_TIME_MULTIPLIER := 1, hash_combine := sampleHashCombine, rand_r := sampleRandR }

/-- The task `T1` of the scenario: binary "sleep", submitted at `t0 = 1000000`. -/
def scenarioT1 : TaskDescriptor :=
  { uid := 1, name := "T1", submit_time := 1000000, binary := "sleep" }

/-- The knowledge base of the scenario: 50 ms for the class of "sleep". -/
def scenarioKB : KnowledgeBase :=
  { GetAvgRuntimeForTEC := fun tec =>
      if tec = toU64 (sampleHashCombine 0 "sleep") then 50 else 0 }

/-- The cost model of the scenario: `T1` alone, one leaf resource. -/
def scenarioModel : SJFCostModel :=
  { task_map_ := fun task_id => if task_id = 1 then some scenarioT1 else none,
    leaf_res_ids_ := [7],
    knowledge_base_ := scenarioKB }

/-- A task map with two tasks running "worker" and a third running "other". -/
def workerTaskMap : TaskID_t → Option TaskDescriptor := fun task_id =>
  if task_id = 10 then
    some { uid := 10, name := "w1", submit_time := 5, binary := "worker" }
  else if task_id = 11 then
    some { uid := 11, name := "w2", submit_time := 900, binary := "worker" }
  else if task_id = 12 then
    some { uid := 12, name := "o", submit_time := 5, binary := "other" }
  else none

/-- A cost model over `workerTaskMap`, with three leaf resources. -/
def workerModel : SJFCostModel :=
  { task_map_ := workerTaskMap,
    leaf_res_ids_ := [41, 42, 43],
    knowledge_base_ := scenarioKB }

/-! ## Resources (`src/base/resource.h`) -/

/-- A task object that a resource can hold (a `Task*` that is not null). -/
abbrev TaskRef := Nat

/-- An ensemble that a resource can join (an `Ensemble*` that is not null). -/
abbrev EnsembleRef := Nat

/-- The data members of `Resource`; a null pointer is `none`. -/
structure Resource where
  name_ : String
  task_capacity_ : Nat
  current_ensemble_ : Option EnsembleRef
  current_task_ : Option TaskRef
  next_available_ : Float
  busy_ : Bool

/-- The accessor `next_available()`. -/
def Resource.next_available (r : Resource) : Float := r.next_available_

/-- The setter `set_next_available`, which writes `next_available_` alone. -/
def Resource.set_next_available (r : Resource) (next_available : Float) : Resource :=
  { r with next_available_ := next_available }

/-- The accessor `name()`. -/
def Resource.name (r : Resource) : String := r.name_

/-- The accessor `busy()`. -/
def Resource.busy (r : Resource) : Bool := r.busy_

/-- The setter `set_busy`, which writes `busy_` alone. -/
def Resource.set_busy (r : Resource) (b : Bool) : Resource :=
  { r with busy_ := b }

/-- Modelled from the spec: `RunTask` is declared in `resource.h` and its body
is not among the sources. It succeeds only while the resource is not already
busy; on success it marks the resource busy and records the occupant; it
returns a boolean outcome. -/
def Resource.RunTask (r : Resource) (task : TaskRef) : Bool × Resource :=
  if r.busy then (false, r)
  else (true, { r with current_task_ := some task, busy_ := true })

/-- Modelled from the spec: `JoinEnsemble` is declared in `resource.h` and its
body is not among the sources. It attaches the resource to the ensemble,
replacing any prior membership, and returns success or failure according to
the admission decision of the ensemble, which is the argument `admitted`. -/
def Resource.JoinEnsemble (r : Resource) (ensemble : EnsembleRef) (admitted : Bool) :
    Bool × Resource :=
  if admitted then (true, { r with current_ensemble_ := some ensemble })
  else (false, r)

/-- Modelled from the spec: `TaskExited` is declared in `resource.h` and its
body is not among the sources. It clears the occupant and the busy flag and
updates `next_available` to the current time `now`. -/
def Resource.TaskExited (r : Resource) (now : Float) : Resource :=
  { r with current_task_ := none, busy_ := false, next_available_ := now }

/-- The predicate of the spec on a resource: `busy()` is true if and only if
the resource holds a task. -/
def busyIffHoldsTask (r : Resource) : Prop :=
  r.busy = true ↔ r.current_task_.isSome = true

/-- A sample resource that holds no task and is not busy. -/
def idleResource : Resource :=
  { name_ := "m1", task_capacity_ := 1, current_ensemble_ := none,
    current_task_ := none, next_available_ := 0, busy_ := false }

/-- A sample resource that holds the task 5 and is busy. -/
def busyResource : Resource :=
  { name_ := "m2", task_capacity_ := 1, current_ensemble_ := some 3,
    current_task_ := some 5, next_available_ := 0, busy_ := true }

/-! ## Machine arithmetic lemmas -/

theorem toU64_lt (n : Nat) : toU64 n < 2 ^ 64 := by
  unfold toU64; omega

theorem toU64_of_lt {n : Nat} (h : n < 2 ^ 64) : toU64 n = n := by
  unfold toU64; omega

theorem mulU64_lt (a b : Nat) : mulU64 a b < 2 ^ 64 := by
  unfold mulU64; omega

theorem subU64_lt (a b : Nat) : subU64 a b < 2 ^ 64 := by
  unfold subU64; omega

theorem subU64_of_le {a b : Nat} (hb : b ≤ a) (ha : a < 2 ^ 64) : subU64 a b = a - b := by
  unfold subU64 toU64; omega

theorem toCost_of_lt {u : Nat} (h : u < 2 ^ 63) : toCost u = (u : Int) := by
  unfold toCost toU64
  have : u % 2 ^ 64 = u := by omega
  rw [this, if_pos h]

theorem toCost_max_ge {w a : Nat} (hw : w < 2 ^ 63) (ha : a < 2 ^ 64) :
    toCost a ≤ toCost (max w a) := by
  unfold toCost toU64
  rcases Nat.le_total w a with h | h
  · rw [max_eq_right h]
  · rw [max_eq_left h]
    have h1 : w % 2 ^ 64 = w := by omega
    have h2 : a % 2 ^ 64 = a := by omega
    rw [h1, h2, if_pos hw, if_pos (by omega : a < 2 ^ 63)]
    exact_mod_cast h

theorem toU64_idem (n : Nat) : toU64 (toU64 n) = toU64 n := by
  unfold toU64; omega

theorem mulU64_eq (a b : Nat) : mulU64 a b = (a * b) % 2 ^ 64 := by
  unfold mulU64 toU64
  exact (Nat.mul_mod a b (2 ^ 64)).symm

theorem wait_time_centamillis_le (now : Nat) (td : TaskDescriptor) :
    wait_time_centamillis now td ≤ 184467440737095 := by
  unfold wait_time_centamillis
  have h := subU64_lt now td.submit_time
  simp only
  omega

/-- With a multiplier of at most 50000 the wait term stays below `2 ^ 63`. -/
theorem wait_term_lt {M : Nat} (hM : M ≤ 50000) (now : Nat) (td : TaskDescriptor) :
    mulU64 M (wait_time_centamillis now td) < 2 ^ 63 := by
  rw [mulU64_eq]
  have h1 := wait_time_centamillis_le now td
  have h2 : M * wait_time_centamillis now td ≤ 50000 * 184467440737095 :=
    Nat.mul_le_mul hM h1
  omega

/-! ## What the functions return for a task that has a descriptor -/

theorem GetTaskEquivClasses_of_some (x : Externals) (m : SJFCostModel) (t : TaskID_t)
    (td : TaskDescriptor) (ht : m.task_map_ t = some td) :
    GetTaskEquivClasses x m t = .ok [toU64 (x.hash_combine 0 td.binary)] := by
  simp [GetTaskEquivClasses, FindPtrOrNull, ht, toU64_idem]

theorem TaskToUnscheduledAggCost_of_some (x : Externals) (m : SJFCostModel) (now : Nat)
    (t : TaskID_t) (td : TaskDescriptor) (ht : m.task_map_ t = some td) :
    TaskToUnscheduledAggCost x m now t =
      .ok (toCost (max (mulU64 x.WAIT_TIME_MULTIPLIER (wait_time_centamillis now td))
        (avg_runtime_scaled m.knowledge_base_ (toU64 (x.hash_combine 0 td.binary))))) := by
  simp [TaskToUnscheduledAggCost, GetTask, FindPtrOrNull, ht,
    GetTaskEquivClasses_of_some x m t td ht]

theorem TaskToClusterAggCost_of_some (x : Externals) (m : SJFCostModel)
    (t : TaskID_t) (td : TaskDescriptor) (ht : m.task_map_ t = some td) :
    TaskToClusterAggCost x m t =
      .ok (toCost (avg_runtime_scaled m.knowledge_base_ (toU64 (x.hash_combine 0 td.binary)))) := by
  simp [TaskToClusterAggCost, GetTaskEquivClasses_of_some x m t td ht]

theorem avg_runtime_scaled_lt (kb : KnowledgeBase) (c : TaskEquivClass_t) :
    avg_runtime_scaled kb c < 2 ^ 64 :=
  mulU64_lt _ _

theorem avg_runtime_scaled_eq (kb : KnowledgeBase) (c : TaskEquivClass_t) :
    avg_runtime_scaled kb c = (100 * kb.GetAvgRuntimeForTEC c) % 2 ^ 64 := by
  unfold avg_runtime_scaled mulU64 toU64
  simp only [Nat.mod_mod]
  rw [Nat.mul_comm 100, Nat.mul_mod (kb.GetAvgRuntimeForTEC c) 100 (2 ^ 64)]

/-! ## The claims -/

/-- C1: for a task with a descriptor and any resource, with the same knowledge
base and the same timestamp, leaving the task unscheduled costs at least as
much as running it, which costs the same in the cluster and on the resource;
the comparison is on the signed 64-bit `Cost_t` values. The constant
`WAIT_TIME_MULTIPLIER` is a parameter, at most 50000 here. -/
theorem C1_unscheduled_ge_cluster (x : Externals) (m : SJFCostModel) (now : Nat)
    (t : TaskID_t) (r : ResourceID_t) (td : TaskDescriptor)
    (hM : x.WAIT_TIME_MULTIPLIER ≤ 50000) (ht : m.task_map_ t = some td) :
    ∃ u c : Cost_t, TaskToUnscheduledAggCost x m now t = .ok u ∧
      TaskToClusterAggCost x m t = .ok c ∧
      TaskToResourceNodeCost x m t r = .ok c ∧ c ≤ u := by
  refine ⟨_, _, TaskToUnscheduledAggCost_of_some x m now t td ht,
    TaskToClusterAggCost_of_some x m t td ht, ?_, ?_⟩
  · exact TaskToClusterAggCost_of_some x m t td ht
  · exact toCost_max_ge (wait_term_lt hM now td) (avg_runtime_scaled_lt _ _)

/-- Witness of C1 in the scenario of the spec, 300 ms after the submission. -/
theorem C1_unscheduled_ge_cluster_witness :
    ∃ u c : Cost_t, TaskToUnscheduledAggCost sampleExternals scenarioModel 1300000 1 = .ok u ∧
      TaskToClusterAggCost sampleExternals scenarioModel 1 = .ok c ∧
      TaskToResourceNodeCost sampleExternals scenarioModel 1 7 = .ok c ∧ c ≤ u :=
  C1_unscheduled_ge_cluster sampleExternals scenarioModel 1300000 1 7 scenarioT1
    (by decide) (by rfl)

/-- C2: for a task with a descriptor, at every timestamp and whatever its
submit time, the cost of leaving it unscheduled is at least the scaled average
runtime `avg_runtime * 100` of its first equivalence class, and at least 100
times the average runtime itself whenever that product fits a `Cost_t`. The
constant `WAIT_TIME_MULTIPLIER` is a parameter, at most 50000 here. -/
theorem C2_avg_runtime_lower_bound (x : Externals) (m : SJFCostModel) (now : Nat)
    (t : TaskID_t) (td : TaskDescriptor)
    (hM : x.WAIT_TIME_MULTIPLIER ≤ 50000) (ht : m.task_map_ t = some td) :
    ∃ (u : Cost_t) (c : TaskEquivClass_t) (rest : List TaskEquivClass_t),
      GetTaskEquivClasses x m t = .ok (c :: rest) ∧
      TaskToUnscheduledAggCost x m now t = .ok u ∧
      toCost (avg_runtime_scaled m.knowledge_base_ c) ≤ u ∧
      (100 * m.knowledge_base_.GetAvgRuntimeForTEC c < 2 ^ 63 →
        ((100 * m.knowledge_base_.GetAvgRuntimeForTEC c : Nat) : Int) ≤ u) := by
  have hle := toCost_max_ge (wait_term_lt hM now td)
    (avg_runtime_scaled_lt m.knowledge_base_ (toU64 (x.hash_combine 0 td.binary)))
  refine ⟨_, _, [], GetTaskEquivClasses_of_some x m t td ht,
    TaskToUnscheduledAggCost_of_some x m now t td ht, hle, ?_⟩
  intro hfit
  have hs : avg_runtime_scaled m.knowledge_base_ (toU64 (x.hash_combine 0 td.binary)) =
      100 * m.knowledge_base_.GetAvgRuntimeForTEC (toU64 (x.hash_combine 0 td.binary)) := by
    rw [avg_runtime_scaled_eq]; omega
  rw [hs] at hle
  rw [toCost_of_lt hfit] at hle
  rw [hs]
  exact hle

/-- Witness of C2 in the scenario of the spec, at the time of submission. -/
theorem C2_avg_runtime_lower_bound_witness :
    ∃ (u : Cost_t) (c : TaskEquivClass_t) (rest : List TaskEquivClass_t),
      GetTaskEquivClasses sampleExternals scenarioModel 1 = .ok (c :: rest) ∧
      TaskToUnscheduledAggCost sampleExternals scenarioModel 1000000 1 = .ok u ∧
      toCost (avg_runtime_scaled scenarioModel.knowledge_base_ c) ≤ u ∧
      (100 * scenarioModel.knowledge_base_.GetAvgRuntimeForTEC c < 2 ^ 63 →
        ((100 * scenarioModel.knowledge_base_.GetAvgRuntimeForTEC c : Nat) : Int) ≤ u) :=
  C2_avg_runtime_lower_bound sampleExternals scenarioModel 1000000 1 scenarioT1
    (by decide) (by rfl)

/-- Exact value of the signed reading of a maximum of two values below `2 ^ 63`. -/
theorem toCost_max_of_lt {a b : Nat} (ha : a < 2 ^ 63) (hb : b < 2 ^ 63) :
    toCost (max (a % 2 ^ 64) (b % 2 ^ 64)) = ((max a b : Nat) : Int) := by
  have h1 : a % 2 ^ 64 = a := by omega
  have h2 : b % 2 ^ 64 = b := by omega
  rw [h1, h2]
  apply toCost_of_lt
  rcases Nat.le_total a b with h | h
  · rw [max_eq_right h]; exact hb
  · rw [max_eq_left h]; exact ha

/-- C3: for a task with a descriptor whose submit time `s` is not after the
timestamp `now`, the cost of leaving it unscheduled is
`max(WAIT_TIME_MULTIPLIER * w, a)` computed on `uint64_t` and returned as
`Cost_t`, with `w = (now - s) / 100000` and `a = 100 * avg` for the average
runtime `avg` of the first equivalence class; when both products are below
`2 ^ 63` this is the maximum of the two numbers themselves. -/
theorem C3_unscheduled_cost_formula (x : Externals) (m : SJFCostModel) (now : Nat)
    (t : TaskID_t) (td : TaskDescriptor)
    (ht : m.task_map_ t = some td) (hnow : now < 2 ^ 64) (hs : td.submit_time ≤ now) :
    ∃ (c : TaskEquivClass_t) (rest : List TaskEquivClass_t),
      GetTaskEquivClasses x m t = .ok (c :: rest) ∧
      TaskToUnscheduledAggCost x m now t =
        .ok (toCost (max
          ((x.WAIT_TIME_MULTIPLIER * ((now - td.submit_time) / 100000)) % 2 ^ 64)
          ((100 * m.knowledge_base_.GetAvgRuntimeForTEC c) % 2 ^ 64))) ∧
      (x.WAIT_TIME_MULTIPLIER * ((now - td.submit_time) / 100000) < 2 ^ 63 →
        100 * m.knowledge_base_.GetAvgRuntimeForTEC c < 2 ^ 63 →
        TaskToUnscheduledAggCost x m now t =
          .ok ((max (x.WAIT_TIME_MULTIPLIER * ((now - td.submit_time) / 100000))
            (100 * m.knowledge_base_.GetAvgRuntimeForTEC c) : Nat) : Int)) := by
  have hw : wait_time_centamillis now td = (now - td.submit_time) / 100000 := by
    unfold wait_time_centamillis
    simp only [subU64_of_le hs hnow]
  have hu := TaskToUnscheduledAggCost_of_some x m now t td ht
  rw [hw, mulU64_eq, avg_runtime_scaled_eq] at hu
  refine ⟨_, [], GetTaskEquivClasses_of_some x m t td ht, hu, ?_⟩
  intro h1 h2
  rw [hu, toCost_max_of_lt h1 h2]

/-- Witness of C3, the scenario of the spec: `T1` with binary "sleep" is
submitted at `t0`, the average runtime of its class is 50 ms, the multiplier
is 1; at `t0 + 300 ms` the scaled wait is 3, the scaled average runtime is
5000 and the cost is 5000. -/
theorem C3_unscheduled_cost_formula_witness :
    scenarioT1.submit_time ≤ 1300000 ∧
    wait_time_centamillis 1300000 scenarioT1 = 3 ∧
    avg_runtime_scaled scenarioKB (toU64 (sampleHashCombine 0 "sleep")) = 5000 ∧
    TaskToUnscheduledAggCost sampleExternals scenarioModel 1300000 1 = .ok 5000 := by
  obtain ⟨c, rest, hc, _, h⟩ :=
    C3_unscheduled_cost_formula sampleExternals scenarioModel 1300000 1 scenarioT1
      (by rfl) (by norm_num) (by decide)
  have hc2 : GetTaskEquivClasses sampleExternals scenarioModel 1 =
      .ok [toU64 (sampleHashCombine 0 "sleep")] :=
    GetTaskEquivClasses_of_some sampleExternals scenarioModel 1 scenarioT1 (by rfl)
  rw [hc2] at hc
  have hceq : c = toU64 (sampleHashCombine 0 "sleep") := by
    injection hc with hc
    injection hc with hc _
    exact hc.symm
  subst hceq
  have hkb : scenarioModel.knowledge_base_.GetAvgRuntimeForTEC
      (toU64 (sampleHashCombine 0 "sleep")) = 50 := by
    simp [scenarioModel, scenarioKB]
  rw [hkb] at h
  refine ⟨by decide, by decide, ?_, ?_⟩
  · rw [avg_runtime_scaled_eq]
    have : scenarioKB.GetAvgRuntimeForTEC (toU64 (sampleHashCombine 0 "sleep")) = 50 := by
      simp [scenarioKB]
    rw [this]
    decide
  · have := h (by decide) (by norm_num)
    rw [this]
    rfl

/-- C4, as stated, fails: in the scenario of the spec (multiplier 1, scaled
average runtime 5000) the wait term 6000 exceeds the scaled average runtime
600 s after the submission, and one microsecond later the cost is still
6000, not strictly greater. -/
theorem C4_counterexample :
    scenarioModel.task_map_ 1 = some scenarioT1 ∧
    (601000000 - scenarioT1.submit_time < 601000001 - scenarioT1.submit_time) ∧
    avg_runtime_scaled scenarioModel.knowledge_base_ (toU64 (sampleHashCombine 0 "sleep")) <
      sampleExternals.WAIT_TIME_MULTIPLIER * wait_time_centamillis 601000000 scenarioT1 ∧
    ∃ u1 u2 : Cost_t,
      TaskToUnscheduledAggCost sampleExternals scenarioModel 601000000 1 = .ok u1 ∧
      TaskToUnscheduledAggCost sampleExternals scenarioModel 601000001 1 = .ok u2 ∧
      u1 = 6000 ∧ u2 = 6000 ∧ ¬ (u1 < u2) := by
  have hkb : scenarioKB.GetAvgRuntimeForTEC (toU64 (sampleHashCombine 0 "sleep")) = 50 := by
    simp [scenarioKB]
  have ha : avg_runtime_scaled scenarioKB (toU64 (sampleHashCombine 0 "sleep")) = 5000 := by
    rw [avg_runtime_scaled_eq, hkb]; decide
  have h1 : TaskToUnscheduledAggCost sampleExternals scenarioModel 601000000 1 =
      .ok (toCost (max (mulU64 1 (wait_time_centamillis 601000000 scenarioT1))
        (avg_runtime_scaled scenarioKB (toU64 (sampleHashCombine 0 "sleep"))))) :=
    TaskToUnscheduledAggCost_of_some sampleExternals scenarioModel 601000000 1
      scenarioT1 (by rfl)
  have h2 : TaskToUnscheduledAggCost sampleExternals scenarioModel 601000001 1 =
      .ok (toCost (max (mulU64 1 (wait_time_centamillis 601000001 scenarioT1))
        (avg_runtime_scaled scenarioKB (toU64 (sampleHashCombine 0 "sleep"))))) :=
    TaskToUnscheduledAggCost_of_some sampleExternals scenarioModel 601000001 1
      scenarioT1 (by rfl)
  rw [ha] at h1 h2
  refine ⟨rfl, by decide, ?_, 6000, 6000, ?_, ?_, rfl, rfl, by decide⟩
  · show avg_runtime_scaled scenarioKB (toU64 (sampleHashCombine 0 "sleep")) < _
    rw [ha]; decide
  · rw [h1]; rfl
  · rw [h2]; rfl

/-- C4, amended: for a task with a descriptor and two timestamps
`now1 < now2` not before its submit time, if the wait term at `now1` exceeds
the scaled average runtime of the first equivalence class and the wait term at
`now2` is below `2 ^ 63`, then the cost of leaving the task unscheduled at
`now2` is at least the cost at `now1`, it is strictly greater exactly when the
scaled wait has grown, and so whenever at least 100000 microseconds lie
between the two. -/
theorem C4_wait_increases_cost (x : Externals) (m : SJFCostModel) (now1 now2 : Nat)
    (t : TaskID_t) (td : TaskDescriptor) (c : TaskEquivClass_t)
    (rest : List TaskEquivClass_t)
    (ht : m.task_map_ t = some td) (hc : GetTaskEquivClasses x m t = .ok (c :: rest))
    (hs : td.submit_time ≤ now1) (h12 : now1 < now2) (h2 : now2 < 2 ^ 64)
    (hexc : avg_runtime_scaled m.knowledge_base_ c <
      x.WAIT_TIME_MULTIPLIER * wait_time_centamillis now1 td)
    (hfit : x.WAIT_TIME_MULTIPLIER * wait_time_centamillis now2 td < 2 ^ 63) :
    ∃ u1 u2 : Cost_t, TaskToUnscheduledAggCost x m now1 t = .ok u1 ∧
      TaskToUnscheduledAggCost x m now2 t = .ok u2 ∧ u1 ≤ u2 ∧
      (u1 < u2 ↔ wait_time_centamillis now1 td < wait_time_centamillis now2 td) ∧
      (now1 + 100000 ≤ now2 → u1 < u2) := by
  have hc2 := GetTaskEquivClasses_of_some x m t td ht
  rw [hc2] at hc
  have hceq : toU64 (x.hash_combine 0 td.binary) = c := by
    injection hc with hc
    injection hc with hc _
  have hw1 : wait_time_centamillis now1 td = (now1 - td.submit_time) / 100000 := by
    unfold wait_time_centamillis
    simp only [subU64_of_le hs (by omega : now1 < 2 ^ 64)]
  have hw2 : wait_time_centamillis now2 td = (now2 - td.submit_time) / 100000 := by
    unfold wait_time_centamillis
    simp only [subU64_of_le (by omega : td.submit_time ≤ now2) h2]
  have hww : wait_time_centamillis now1 td ≤ wait_time_centamillis now2 td := by
    rw [hw1, hw2]
    exact Nat.div_le_div_right (by omega)
  have hmul : x.WAIT_TIME_MULTIPLIER * wait_time_centamillis now1 td ≤
      x.WAIT_TIME_MULTIPLIER * wait_time_centamillis now2 td :=
    Nat.mul_le_mul_left _ hww
  have hMpos : 0 < x.WAIT_TIME_MULTIPLIER := by
    rcases Nat.eq_zero_or_pos x.WAIT_TIME_MULTIPLIER with h0 | h0
    · rw [h0] at hexc; simp at hexc
    · exact h0
  have e1 := TaskToUnscheduledAggCost_of_some x m now1 t td ht
  have e2 := TaskToUnscheduledAggCost_of_some x m now2 t td ht
  rw [hceq, mulU64_eq] at e1 e2
  have m1 : x.WAIT_TIME_MULTIPLIER * wait_time_centamillis now1 td % 2 ^ 64 =
      x.WAIT_TIME_MULTIPLIER * wait_time_centamillis now1 td := by omega
  have m2 : x.WAIT_TIME_MULTIPLIER * wait_time_centamillis now2 td % 2 ^ 64 =
      x.WAIT_TIME_MULTIPLIER * wait_time_centamillis now2 td := by omega
  rw [m1, max_eq_left (by omega), toCost_of_lt (by omega)] at e1
  rw [m2, max_eq_left (by omega), toCost_of_lt hfit] at e2
  have hiff : x.WAIT_TIME_MULTIPLIER * wait_time_centamillis now1 td <
      x.WAIT_TIME_MULTIPLIER * wait_time_centamillis now2 td ↔
      wait_time_centamillis now1 td < wait_time_centamillis now2 td :=
    Nat.mul_lt_mul_left hMpos
  refine ⟨_, _, e1, e2, by exact_mod_cast hmul, ?_, ?_⟩
  · rw [← hiff]; exact Nat.cast_lt
  · intro hgap
    have : wait_time_centamillis now1 td < wait_time_centamillis now2 td := by
      rw [hw1, hw2]; omega
    exact_mod_cast hiff.mpr this

/-- Witness of the amended C4 in the scenario of the spec: 600 s and 600.1 s
after the submission. -/
theorem C4_wait_increases_cost_witness :
    ∃ u1 u2 : Cost_t,
      TaskToUnscheduledAggCost sampleExternals scenarioModel 601000000 1 = .ok u1 ∧
      TaskToUnscheduledAggCost sampleExternals scenarioModel 601100000 1 = .ok u2 ∧
      u1 ≤ u2 ∧
      (u1 < u2 ↔ wait_time_centamillis 601000000 scenarioT1 <
        wait_time_centamillis 601100000 scenarioT1) ∧
      (601000000 + 100000 ≤ 601100000 → u1 < u2) :=
  C4_wait_increases_cost sampleExternals scenarioModel 601000000 601100000 1 scenarioT1
    (toU64 (sampleHashCombine 0 "sleep")) []
    (by rfl) (GetTaskEquivClasses_of_some sampleExternals scenarioModel 1 scenarioT1 (by rfl))
    (by decide) (by decide) (by norm_num)
    (by
      have hkb : scenarioModel.knowledge_base_.GetAvgRuntimeForTEC
          (toU64 (sampleHashCombine 0 "sleep")) = 50 := by
        simp [scenarioModel, scenarioKB]
      rw [avg_runtime_scaled_eq, hkb]; decide)
    (by decide)

/-- C5: for a task with a descriptor, the cost of running it in the cluster is
`avg_runtime * 100` on `uint64_t`, returned as `Cost_t`, for the average
runtime of the first of its equivalence classes, the hash of its binary, and
it is 100 times that average whenever the product is below `2 ^ 63`. The
timestamp is not an argument of the function, and two cost models with the
same knowledge base give the same cost to a task with the same binary,
whatever the submit times and the leaf resources. -/
theorem C5_cluster_cost_formula (x : Externals) (m : SJFCostModel) (t : TaskID_t)
    (td : TaskDescriptor) (ht : m.task_map_ t = some td) :
    ∃ (c : TaskEquivClass_t) (rest : List TaskEquivClass_t),
      GetTaskEquivClasses x m t = .ok (c :: rest) ∧
      c = toU64 (x.hash_combine 0 td.binary) ∧
      TaskToClusterAggCost x m t =
        .ok (toCost ((100 * m.knowledge_base_.GetAvgRuntimeForTEC c) % 2 ^ 64)) ∧
      (100 * m.knowledge_base_.GetAvgRuntimeForTEC c < 2 ^ 63 →
        TaskToClusterAggCost x m t =
          .ok ((100 * m.knowledge_base_.GetAvgRuntimeForTEC c : Nat) : Int)) ∧
      (∀ (m2 : SJFCostModel) (t2 : TaskID_t) (td2 : TaskDescriptor),
        m2.task_map_ t2 = some td2 → td2.binary = td.binary →
        m2.knowledge_base_ = m.knowledge_base_ →
        TaskToClusterAggCost x m2 t2 = TaskToClusterAggCost x m t) := by
  have hcl := TaskToClusterAggCost_of_some x m t td ht
  refine ⟨_, [], GetTaskEquivClasses_of_some x m t td ht, rfl, ?_, ?_, ?_⟩
  · rw [hcl, avg_runtime_scaled_eq]
  · intro hfit
    rw [hcl, avg_runtime_scaled_eq]
    have : 100 * m.knowledge_base_.GetAvgRuntimeForTEC (toU64 (x.hash_combine 0 td.binary))
        % 2 ^ 64 =
        100 * m.knowledge_base_.GetAvgRuntimeForTEC (toU64 (x.hash_combine 0 td.binary)) := by
      omega
    rw [this, toCost_of_lt hfit]
  · intro m2 t2 td2 ht2 hb hkb
    rw [hcl, TaskToClusterAggCost_of_some x m2 t2 td2 ht2, hb, hkb]

/-- Witness of C5: the two "worker" tasks of `workerModel`, with different
identities and submit times, and the cost of the first of them. -/
theorem C5_cluster_cost_formula_witness :
    TaskToClusterAggCost sampleExternals workerModel 11 =
      TaskToClusterAggCost sampleExternals workerModel 10 ∧
    ∃ c : TaskEquivClass_t, c = toU64 (sampleHashCombine 0 "worker") ∧
      TaskToClusterAggCost sampleExternals workerModel 10 =
        .ok (toCost ((100 * scenarioKB.GetAvgRuntimeForTEC c) % 2 ^ 64)) := by
  obtain ⟨c, _, _, hc, hcost, _, hind⟩ :=
    C5_cluster_cost_formula sampleExternals workerModel 10
      { uid := 10, name := "w1", submit_time := 5, binary := "worker" } (by rfl)
  exact ⟨hind workerModel 11 { uid := 11, name := "w2", submit_time := 900, binary := "worker" }
    (by rfl) rfl rfl, c, hc, hcost⟩

/-- C6: the cost of running a task on a resource is the same for all resources
and is the result of `TaskToClusterAggCost`, value or failure alike. -/
theorem C6_resource_agnostic (x : Externals) (m : SJFCostModel) (t : TaskID_t)
    (r1 r2 : ResourceID_t) :
    TaskToResourceNodeCost x m t r1 = TaskToResourceNodeCost x m t r2 ∧
    TaskToResourceNodeCost x m t r1 = TaskToClusterAggCost x m t ∧
    (∀ e : Fatal, TaskToResourceNodeCost x m t r1 = .error e ↔
      TaskToClusterAggCost x m t = .error e) ∧
    (∀ c : Cost_t, TaskToResourceNodeCost x m t r1 = .ok c ↔
      TaskToClusterAggCost x m t = .ok c) :=
  ⟨rfl, rfl, fun _ => Iff.rfl, fun _ => Iff.rfl⟩

/-- C7: the nine arcs that the policy does not differentiate cost 0 for every
input; these functions are total and depend on neither the task map nor the
leaf resources. -/
theorem C7_neutral_costs (job_id : JobID_t) (task_id : TaskID_t)
    (tec tec2 : TaskEquivClass_t) (r r2 : ResourceID_t) :
    UnscheduledAggToSinkCost job_id = 0 ∧
    ClusterAggToResourceNodeCost r = 0 ∧
    ResourceNodeToResourceNodeCost r r2 = 0 ∧
    LeafResourceNodeToSinkCost r = 0 ∧
    TaskContinuationCost task_id = 0 ∧
    TaskPreemptionCost task_id = 0 ∧
    TaskToEquivClassAggregator task_id tec = 0 ∧
    EquivClassToResourceNode tec r = 0 ∧
    EquivClassToEquivClass tec tec2 = 0 :=
  ⟨by simp [UnscheduledAggToSinkCost, toCost, toU64], rfl, rfl, rfl, rfl, rfl, rfl, rfl, rfl⟩

/-- C8: two tasks with descriptors get one class each; with equal binaries the
classes are equal, whatever the other attributes, and the classes differ
whenever the `size_t` results of `hash_combine` from seed 0 on the two
binaries differ. -/
theorem C8_classes_from_binary (x : Externals) (m : SJFCostModel) (t1 t2 : TaskID_t)
    (td1 td2 : TaskDescriptor)
    (h1 : m.task_map_ t1 = some td1) (h2 : m.task_map_ t2 = some td2) :
    ∃ c1 c2 : TaskEquivClass_t,
      GetTaskEquivClasses x m t1 = .ok [c1] ∧ GetTaskEquivClasses x m t2 = .ok [c2] ∧
      (td1.binary = td2.binary → c1 = c2) ∧
      (toU64 (x.hash_combine 0 td1.binary) ≠ toU64 (x.hash_combine 0 td2.binary) →
        c1 ≠ c2) := by
  refine ⟨_, _, GetTaskEquivClasses_of_some x m t1 td1 h1,
    GetTaskEquivClasses_of_some x m t2 td2 h2, ?_, ?_⟩
  · intro hb; rw [hb]
  · intro hne; exact hne

/-- Witness of C8, the scenario of the spec: under the sample hash the two
tasks running "worker" get the same class and the task running "other" gets
a different one. -/
theorem C8_classes_from_binary_witness :
    ∃ c10 c11 c12 : TaskEquivClass_t,
      GetTaskEquivClasses sampleExternals workerModel 10 = .ok [c10] ∧
      GetTaskEquivClasses sampleExternals workerModel 11 = .ok [c11] ∧
      GetTaskEquivClasses sampleExternals workerModel 12 = .ok [c12] ∧
      c10 = c11 ∧ c10 ≠ c12 := by
  obtain ⟨a, b, ha, hb, hab, _⟩ :=
    C8_classes_from_binary sampleExternals workerModel 10 11
      { uid := 10, name := "w1", submit_time := 5, binary := "worker" }
      { uid := 11, name := "w2", submit_time := 900, binary := "worker" } (by rfl) (by rfl)
  obtain ⟨a2, c, ha2, hc, _, hac⟩ :=
    C8_classes_from_binary sampleExternals workerModel 10 12
      { uid := 10, name := "w1", submit_time := 5, binary := "worker" }
      { uid := 12, name := "o", submit_time := 5, binary := "other" } (by rfl) (by rfl)
  have haa : a2 = a := by
    rw [ha] at ha2
    injection ha2 with ha2
    injection ha2 with ha2 _
    exact ha2.symm
  subst haa
  exact ⟨a2, b, c, ha, hb, hc, hab rfl, hac (by decide)⟩

/-- C9: a task with a descriptor has exactly one equivalence class, both costs
are returned for it, and neither cost function ever stops at the check that
the classes are not empty, for any task identifier and timestamp. -/
theorem C9_one_class (x : Externals) (m : SJFCostModel) (now : Nat) (t : TaskID_t)
    (td : TaskDescriptor) (ht : m.task_map_ t = some td) :
    (∃ c : TaskEquivClass_t, GetTaskEquivClasses x m t = .ok [c]) ∧
    (∃ u : Cost_t, TaskToUnscheduledAggCost x m now t = .ok u) ∧
    (∃ c : Cost_t, TaskToClusterAggCost x m t = .ok c) ∧
    (∀ (now2 : Nat) (t2 : TaskID_t),
      TaskToUnscheduledAggCost x m now2 t2 ≠ .error Fatal.CHECK_GT ∧
      TaskToClusterAggCost x m t2 ≠ .error Fatal.CHECK_GT) := by
  refine ⟨⟨_, GetTaskEquivClasses_of_some x m t td ht⟩,
    ⟨_, TaskToUnscheduledAggCost_of_some x m now t td ht⟩,
    ⟨_, TaskToClusterAggCost_of_some x m t td ht⟩, ?_⟩
  intro now2 t2
  cases h : m.task_map_ t2 with
  | none =>
    constructor
    · simp [TaskToUnscheduledAggCost, GetTask, FindPtrOrNull, h]
    · simp [TaskToClusterAggCost, GetTaskEquivClasses, FindPtrOrNull, h]
  | some td2 =>
    constructor
    · rw [TaskToUnscheduledAggCost_of_some x m now2 t2 td2 h]; simp
    · rw [TaskToClusterAggCost_of_some x m t2 td2 h]; simp

/-- Witness of C9 in the scenario of the spec. -/
theorem C9_one_class_witness :
    (∃ c : TaskEquivClass_t, GetTaskEquivClasses sampleExternals scenarioModel 1 = .ok [c]) ∧
    (∃ u : Cost_t, TaskToUnscheduledAggCost sampleExternals scenarioModel 1300000 1 = .ok u) ∧
    (∃ c : Cost_t, TaskToClusterAggCost sampleExternals scenarioModel 1 = .ok c) ∧
    (∀ (now2 : Nat) (t2 : TaskID_t),
      TaskToUnscheduledAggCost sampleExternals scenarioModel now2 t2 ≠ .error Fatal.CHECK_GT ∧
      TaskToClusterAggCost sampleExternals scenarioModel t2 ≠ .error Fatal.CHECK_GT) :=
  C9_one_class sampleExternals scenarioModel 1300000 1 scenarioT1 (by rfl)

/-- With a non-empty leaf set the preference arcs are the single resource at
the position that the first number drawn from seed 0 gives. -/
theorem GetEquivClassPreferenceArcs_of_pos (x : Externals) (m : SJFCostModel)
    (tec : TaskEquivClass_t) (h : 0 < m.leaf_res_ids_.length) :
    GetEquivClassPreferenceArcs x m tec =
      .ok [m.leaf_res_ids_.get
        ⟨(x.rand_r 0).1 % m.leaf_res_ids_.length, Nat.mod_lt _ h⟩] := by
  have h1 : 1 ≤ m.leaf_res_ids_.length := h
  simp [GetEquivClassPreferenceArcs, h1, preferenceArcsLoop]

/-- C10: with a non-empty leaf set, the preference arcs of any class are a
sequence of exactly one resource, that resource is in the leaf set, the
position `rand % size` is within the set, and with a single leaf resource the
result is that resource. -/
theorem C10_preference_arc_in_leaf_set (x : Externals) (m : SJFCostModel)
    (tec : TaskEquivClass_t) (hne : m.leaf_res_ids_ ≠ []) :
    (x.rand_r 0).1 % m.leaf_res_ids_.length < m.leaf_res_ids_.length ∧
    (∃ r : ResourceID_t, GetEquivClassPreferenceArcs x m tec = .ok [r] ∧
      r ∈ m.leaf_res_ids_ ∧
      m.leaf_res_ids_[(x.rand_r 0).1 % m.leaf_res_ids_.length]? = some r) ∧
    (∀ r0 : ResourceID_t, m.leaf_res_ids_ = [r0] →
      GetEquivClassPreferenceArcs x m tec = .ok [r0]) := by
  have hpos : 0 < m.leaf_res_ids_.length := List.length_pos.mpr hne
  have hidx := Nat.mod_lt (x.rand_r 0).1 hpos
  have hres := GetEquivClassPreferenceArcs_of_pos x m tec hpos
  refine ⟨hidx, ⟨_, hres, List.get_mem _ _ _, ?_⟩, ?_⟩
  · exact List.getElem?_eq_getElem hidx
  · intro r0 h0
    rw [hres]
    have hmem := List.get_mem m.leaf_res_ids_
      ((x.rand_r 0).1 % m.leaf_res_ids_.length) hidx
    have hall : ∀ y ∈ m.leaf_res_ids_, y = r0 := by
      intro y hy
      rw [h0] at hy
      exact List.mem_singleton.mp hy
    rw [hall _ hmem]

/-- Witness of C10: the single leaf resource of the scenario, and the three
leaf resources of `workerModel`. -/
theorem C10_preference_arc_in_leaf_set_witness :
    GetEquivClassPreferenceArcs sampleExternals scenarioModel 0 = .ok [7] ∧
    ∃ r : ResourceID_t, GetEquivClassPreferenceArcs sampleExternals workerModel 5 = .ok [r] ∧
      r ∈ workerModel.leaf_res_ids_ :=
  ⟨(C10_preference_arc_in_leaf_set sampleExternals scenarioModel 0 (by decide)).2.2 7 rfl,
    (C10_preference_arc_in_leaf_set sampleExternals workerModel 5 (by decide)).2.1.imp
      (fun _ h => ⟨h.1, h.2.1⟩)⟩

/-- With an empty leaf set the preference arcs fail at the size check. -/
theorem GetEquivClassPreferenceArcs_of_nil (x : Externals) (m : SJFCostModel)
    (tec : TaskEquivClass_t) (h : m.leaf_res_ids_ = []) :
    GetEquivClassPreferenceArcs x m tec = .error Fatal.CHECK_GE := by
  simp [GetEquivClassPreferenceArcs, h]

/-- C11: `GetEquivClassPreferenceArcs` fails, at the check on the size of the
leaf set, if and only if the leaf set is empty; it returns a sequence if and
only if the leaf set is not empty, and a sequence it returns is never empty. -/
theorem C11_fails_iff_no_leaf (x : Externals) (m : SJFCostModel) (tec : TaskEquivClass_t) :
    ((∃ e : Fatal, GetEquivClassPreferenceArcs x m tec = .error e) ↔
      m.leaf_res_ids_ = []) ∧
    (GetEquivClassPreferenceArcs x m tec = .error Fatal.CHECK_GE ↔
      m.leaf_res_ids_ = []) ∧
    ((∃ rs : List ResourceID_t, GetEquivClassPreferenceArcs x m tec = .ok rs) ↔
      m.leaf_res_ids_ ≠ []) ∧
    GetEquivClassPreferenceArcs x m tec ≠ .ok [] := by
  cases hL : m.leaf_res_ids_ with
  | nil =>
    have hres := GetEquivClassPreferenceArcs_of_nil x m tec hL
    rw [hres]
    simp
  | cons a l =>
    have hpos : 0 < m.leaf_res_ids_.length := by rw [hL]; simp
    have hres := GetEquivClassPreferenceArcs_of_pos x m tec hpos
    rw [hres]
    simp

/-- What the four functions that read the task map return for a task
identifier without a descriptor. -/
theorem fatal_of_none (x : Externals) (m : SJFCostModel) (now : Nat) (t : TaskID_t)
    (r : ResourceID_t) (h : m.task_map_ t = none) :
    TaskToUnscheduledAggCost x m now t = .error Fatal.CHECK_NOTNULL ∧
    TaskToClusterAggCost x m t = .error Fatal.CHECK_NOTNULL ∧
    TaskToResourceNodeCost x m t r = .error Fatal.CHECK_NOTNULL ∧
    GetTaskEquivClasses x m t = .error Fatal.CHECK_NOTNULL := by
  simp [TaskToUnscheduledAggCost, TaskToResourceNodeCost, TaskToClusterAggCost,
    GetTaskEquivClasses, GetTask, FindPtrOrNull, h]

/-- C12: each of `TaskToUnscheduledAggCost`, `TaskToClusterAggCost`,
`TaskToResourceNodeCost` and `GetTaskEquivClasses` fails if and only if the
task identifier has no descriptor in the task map, the failure is then the
check that the descriptor is not null, and each returns a value if and only
if the task has a descriptor. -/
theorem C12_fails_iff_no_descriptor (x : Externals) (m : SJFCostModel) (now : Nat)
    (t : TaskID_t) (r : ResourceID_t) :
    ((∃ e, TaskToUnscheduledAggCost x m now t = .error e) ↔ m.task_map_ t = none) ∧
    ((∃ e, TaskToClusterAggCost x m t = .error e) ↔ m.task_map_ t = none) ∧
    ((∃ e, TaskToResourceNodeCost x m t r = .error e) ↔ m.task_map_ t = none) ∧
    ((∃ e, GetTaskEquivClasses x m t = .error e) ↔ m.task_map_ t = none) ∧
    (m.task_map_ t = none ↔
      (TaskToUnscheduledAggCost x m now t = .error Fatal.CHECK_NOTNULL ∧
        TaskToClusterAggCost x m t = .error Fatal.CHECK_NOTNULL ∧
        TaskToResourceNodeCost x m t r = .error Fatal.CHECK_NOTNULL ∧
        GetTaskEquivClasses x m t = .error Fatal.CHECK_NOTNULL)) ∧
    ((∃ td, m.task_map_ t = some td) ↔
      ((∃ u, TaskToUnscheduledAggCost x m now t = .ok u) ∧
        (∃ c, TaskToClusterAggCost x m t = .ok c) ∧
        (∃ c, TaskToResourceNodeCost x m t r = .ok c) ∧
        (∃ cs, GetTaskEquivClasses x m t = .ok cs))) := by
  cases h : m.task_map_ t with
  | none =>
    obtain ⟨h1, h2, h3, h4⟩ := fatal_of_none x m now t r h
    rw [h1, h2, h3, h4]
    simp
  | some td =>
    have h1 := TaskToUnscheduledAggCost_of_some x m now t td h
    have h2 := TaskToClusterAggCost_of_some x m t td h
    have h3 : TaskToResourceNodeCost x m t r = _ := h2
    have h4 := GetTaskEquivClasses_of_some x m t td h
    rw [h1, h2, h3, h4]
    simp

/-- C13: `GetTaskPreferenceArcs` and `GetEquivClassToEquivClassesArcs` fail
with the message "Not implemented!" for every argument, without reading the
task map or the leaf set, and never return arcs; that failure differs from
the failed checks, and the functions that check for a descriptor or for a
leaf resource never fail in this way. -/
theorem C13_not_implemented (x : Externals) (m : SJFCostModel) (now : Nat)
    (task_id : TaskID_t) (tec : TaskEquivClass_t) :
    GetTaskPreferenceArcs task_id = .error (Fatal.LOG_FATAL "Not implemented!") ∧
    GetEquivClassToEquivClassesArcs tec = .error (Fatal.LOG_FATAL "Not implemented!") ∧
    (∀ arcs, GetTaskPreferenceArcs task_id ≠ .ok arcs) ∧
    (∀ arcs, GetEquivClassToEquivClassesArcs tec ≠ .ok arcs) ∧
    Fatal.LOG_FATAL "Not implemented!" ≠ Fatal.CHECK_NOTNULL ∧
    Fatal.LOG_FATAL "Not implemented!" ≠ Fatal.CHECK_GE ∧
    Fatal.LOG_FATAL "Not implemented!" ≠ Fatal.CHECK_GT ∧
    (∀ msg, GetTask m task_id ≠ .error (Fatal.LOG_FATAL msg)) ∧
    (∀ msg, GetTaskEquivClasses x m task_id ≠ .error (Fatal.LOG_FATAL msg)) ∧
    (∀ msg, TaskToUnscheduledAggCost x m now task_id ≠ .error (Fatal.LOG_FATAL msg)) ∧
    (∀ msg, TaskToClusterAggCost x m task_id ≠ .error (Fatal.LOG_FATAL msg)) ∧
    (∀ msg, GetEquivClassPreferenceArcs x m tec ≠ .error (Fatal.LOG_FATAL msg)) := by
  refine ⟨rfl, rfl, ?_, ?_, ?_, ?_, ?_, ?_, ?_, ?_, ?_, ?_⟩
  · intro arcs h; simp [GetTaskPreferenceArcs] at h
  · intro arcs h; simp [GetEquivClassToEquivClassesArcs] at h
  · intro h; cases h
  · intro h; cases h
  · intro h; cases h
  · intro msg
    cases h : m.task_map_ task_id <;> simp [GetTask, FindPtrOrNull, h]
  · intro msg
    cases h : m.task_map_ task_id <;> simp [GetTaskEquivClasses, FindPtrOrNull, h]
  · intro msg
    cases h : m.task_map_ task_id with
    | none => rw [(fatal_of_none x m now task_id 0 h).1]; simp
    | some td => rw [TaskToUnscheduledAggCost_of_some x m now task_id td h]; simp
  · intro msg
    cases h : m.task_map_ task_id with
    | none => rw [(fatal_of_none x m now task_id 0 h).2.1]; simp
    | some td => rw [TaskToClusterAggCost_of_some x m task_id td h]; simp
  · intro msg
    cases hL : m.leaf_res_ids_ with
    | nil => rw [GetEquivClassPreferenceArcs_of_nil x m tec hL]; simp
    | cons a l =>
      have hpos : 0 < m.leaf_res_ids_.length := by rw [hL]; simp
      rw [GetEquivClassPreferenceArcs_of_pos x m tec hpos]; simp

/-- C14, as stated, fails: a task submitted 300000 microseconds before the
timestamp has the scaled wait 3, and 300000 divided by 10000 is 30. -/
theorem C14_counterexample :
    scenarioT1.submit_time + 300000 = 1300000 ∧
    wait_time_centamillis 1300000 scenarioT1 = 3 ∧
    300000 / 10000 = 30 ∧
    wait_time_centamillis 1300000 scenarioT1 ≠ 300000 / 10000 := by
  refine ⟨by decide, by decide, by decide, by decide⟩

/-- C14, amended: the wait term is the elapsed time since the submission in
tenths of a second; for a task submitted `e` microseconds before the
timestamp the scaled wait is `e / 100000`, rounded down. -/
theorem C14_wait_in_tenths (td : TaskDescriptor) (e : Nat)
    (hnow : td.submit_time + e < 2 ^ 64) :
    wait_time_centamillis (td.submit_time + e) td = e / 100000 := by
  unfold wait_time_centamillis
  have h := subU64_of_le (Nat.le_add_right td.submit_time e) hnow
  simp only [h, Nat.add_sub_cancel_left]

/-- Witness of the amended C14: 300 ms after the submission the scaled wait
is 3. -/
theorem C14_wait_in_tenths_witness :
    scenarioT1.submit_time + 300000 < 2 ^ 64 ∧
    wait_time_centamillis (scenarioT1.submit_time + 300000) scenarioT1 = 3 :=
  ⟨by decide, C14_wait_in_tenths scenarioT1 300000 (by decide)⟩

/-- C15, as stated, fails: the sample idle resource satisfies the predicate,
and after `set_busy(true)` it is busy without holding a task. -/
theorem C15_counterexample :
    busyIffHoldsTask idleResource ∧
    (idleResource.set_busy true).busy = true ∧
    (idleResource.set_busy true).current_task_ = none ∧
    ¬ busyIffHoldsTask (idleResource.set_busy true) := by
  refine ⟨?_, rfl, rfl, ?_⟩
  · simp [busyIffHoldsTask, idleResource, Resource.busy]
  · simp [busyIffHoldsTask, idleResource, Resource.busy, Resource.set_busy]

/-- C15, amended: on a resource where `busy()` is true if and only if a task
is held, that stays so after `set_next_available`, `RunTask`, `TaskExited` and
`JoinEnsemble`, the accessors leave the resource as it is, and it stays so
after `set_busy(b)` exactly when `b` says whether a task is held. -/
theorem C15_busy_predicate_preserved (r : Resource) (v now : Float) (task : TaskRef)
    (ensemble : EnsembleRef) (admitted b : Bool) (h : busyIffHoldsTask r) :
    busyIffHoldsTask (r.set_next_available v) ∧
    busyIffHoldsTask (r.RunTask task).2 ∧
    busyIffHoldsTask (r.TaskExited now) ∧
    busyIffHoldsTask (r.JoinEnsemble ensemble admitted).2 ∧
    (busyIffHoldsTask (r.set_busy b) ↔ (b = true ↔ r.current_task_.isSome = true)) := by
  unfold busyIffHoldsTask Resource.busy at *
  refine ⟨h, ?_, ?_, ?_, Iff.rfl⟩
  · unfold Resource.RunTask Resource.busy
    cases hb : r.busy_ <;> simp [hb] at h ⊢
    exact h
  · simp [Resource.TaskExited]
  · unfold Resource.JoinEnsemble
    cases admitted <;> exact h

/-- Witness of the amended C15 on the sample busy resource. -/
theorem C15_busy_predicate_preserved_witness :
    busyIffHoldsTask busyResource ∧
    busyIffHoldsTask (busyResource.set_next_available 2) ∧
    busyIffHoldsTask (busyResource.RunTask 9).2 ∧
    busyIffHoldsTask (busyResource.TaskExited 2) ∧
    busyIffHoldsTask (busyResource.JoinEnsemble 4 true).2 ∧
    (busyIffHoldsTask (busyResource.set_busy false) ↔
      (false = true ↔ busyResource.current_task_.isSome = true)) :=
  have h : busyIffHoldsTask busyResource := by
    simp [busyIffHoldsTask, busyResource, Resource.busy]
  ⟨h, C15_busy_predicate_preserved busyResource 2 2 9 4 true false h⟩

/-- C16: `RunTask` on a busy resource returns false and leaves the resource,
its occupant and its busy flag as they were; on a resource that is not busy
it returns true, records the task as the occupant and makes `busy()` true. -/
theorem C16_run_task (r : Resource) (task : TaskRef) :
    (r.busy = true → (r.RunTask task).1 = false ∧ (r.RunTask task).2 = r ∧
      (r.RunTask task).2.current_task_ = r.current_task_ ∧
      (r.RunTask task).2.busy = r.busy) ∧
    (r.busy = false → (r.RunTask task).1 = true ∧
      (r.RunTask task).2.current_task_ = some task ∧
      (r.RunTask task).2.busy = true) := by
  constructor
  · intro hb
    simp [Resource.RunTask, hb]
  · intro hb
    have hb2 : r.busy_ = false := hb
    simp [Resource.RunTask, Resource.busy, hb2]

/-- Witness of C16 on the sample resources: the busy one keeps the task 5,
the idle one takes the task 9. -/
theorem C16_run_task_witness :
    (busyResource.RunTask 9).1 = false ∧
    (busyResource.RunTask 9).2.current_task_ = some 5 ∧
    (busyResource.RunTask 9).2.busy = true ∧
    (idleResource.RunTask 9).1 = true ∧
    (idleResource.RunTask 9).2.current_task_ = some 9 ∧
    (idleResource.RunTask 9).2.busy = true :=
  have hb := (C16_run_task busyResource 9).1 rfl
  have hi := (C16_run_task idleResource 9).2 rfl
  ⟨hb.1, hb.2.2.1, hb.2.2.2, hi.1, hi.2.1, hi.2.2⟩

/-- C17: the code at the failing input. In the scenario of the spec, queried
at the time of submission, leaving the task unscheduled costs 5000 and running
it costs 5000: the first is not strictly higher. -/
theorem C17_tie_at_submission :
    scenarioModel.task_map_ 1 = some scenarioT1 ∧
    ∃ u c : Cost_t,
      TaskToUnscheduledAggCost sampleExternals scenarioModel 1000000 1 = .ok u ∧
      TaskToClusterAggCost sampleExternals scenarioModel 1 = .ok c ∧
      u = 5000 ∧ c = 5000 ∧ ¬ (c < u) := by
  have hkb : scenarioKB.GetAvgRuntimeForTEC (toU64 (sampleHashCombine 0 "sleep")) = 50 := by
    simp [scenarioKB]
  have ha : avg_runtime_scaled scenarioKB (toU64 (sampleHashCombine 0 "sleep")) = 5000 := by
    rw [avg_runtime_scaled_eq, hkb]; decide
  have h1 : TaskToUnscheduledAggCost sampleExternals scenarioModel 1000000 1 =
      .ok (toCost (max (mulU64 1 (wait_time_centamillis 1000000 scenarioT1))
        (avg_runtime_scaled scenarioKB (toU64 (sampleHashCombine 0 "sleep"))))) :=
    TaskToUnscheduledAggCost_of_some sampleExternals scenarioModel 1000000 1
      scenarioT1 (by rfl)
  have h2 : TaskToClusterAggCost sampleExternals scenarioModel 1 =
      .ok (toCost (avg_runtime_scaled scenarioKB (toU64 (sampleHashCombine 0 "sleep")))) :=
    TaskToClusterAggCost_of_some sampleExternals scenarioModel 1 scenarioT1 (by rfl)
  rw [ha] at h1 h2
  refine ⟨rfl, 5000, 5000, ?_, ?_, rfl, rfl, by decide⟩
  · rw [h1]; rfl
  · rw [h2]; rfl

/-- C18: with a non-empty leaf set, the resource at the position that the
first number drawn from seed 0 gives, modulo the size of the set, is the
single result of `GetEquivClassPreferenceArcs` for every class, and so for
every call in any sequence of calls. -/
theorem C18_same_arc_every_call (x : Externals) (m : SJFCostModel)
    (hne : m.leaf_res_ids_ ≠ []) :
    ∃ r : ResourceID_t,
      m.leaf_res_ids_[(x.rand_r 0).1 % m.leaf_res_ids_.length]? = some r ∧
      (∀ tec : TaskEquivClass_t, GetEquivClassPreferenceArcs x m tec = .ok [r]) ∧
      (∀ tec1 tec2 : TaskEquivClass_t,
        GetEquivClassPreferenceArcs x m tec1 = GetEquivClassPreferenceArcs x m tec2) ∧
      (∀ calls : List TaskEquivClass_t,
        ∀ res ∈ calls.map (GetEquivClassPreferenceArcs x m), res = .ok [r]) := by
  have hpos : 0 < m.leaf_res_ids_.length := List.length_pos.mpr hne
  have hidx := Nat.mod_lt (x.rand_r 0).1 hpos
  have hall := fun tec => GetEquivClassPreferenceArcs_of_pos x m tec hpos
  refine ⟨_, List.getElem?_eq_getElem hidx, hall, ?_, ?_⟩
  · intro tec1 tec2
    rw [hall tec1, hall tec2]
  · intro calls res hres
    obtain ⟨tec, _, htec⟩ := List.mem_map.mp hres
    rw [← htec]
    exact hall tec

/-- Witness of C18: with the sample `rand_r`, whose first number from seed 0
is 1012484, the three leaf resources of `workerModel` give the third one for
every class. -/
theorem C18_same_arc_every_call_witness :
    (sampleExternals.rand_r 0).1 = 1012484 ∧
    GetEquivClassPreferenceArcs sampleExternals workerModel 0 = .ok [43] ∧
    GetEquivClassPreferenceArcs sampleExternals workerModel 77 = .ok [43] := by
  obtain ⟨r, hr, hall, _, _⟩ :=
    C18_same_arc_every_call sampleExternals workerModel (by decide)
  have h43 : workerModel.leaf_res_ids_[(sampleExternals.rand_r 0).1 %
      workerModel.leaf_res_ids_.length]? = some 43 := by decide
  rw [h43] at hr
  have hr2 : r = 43 := (Option.some.inj hr).symm
  subst hr2
  exact ⟨by decide, hall 0, hall 77⟩

/-- C19: for a task with a descriptor, two timestamps `now1 ≤ now2` not
before its submit time, and both terms of the later cost below `2 ^ 63`, the
cost of leaving the task unscheduled at `now1` is at most the cost at
`now2`. -/
theorem C19_monotone_in_time (x : Externals) (m : SJFCostModel) (now1 now2 : Nat)
    (t : TaskID_t) (td : TaskDescriptor) (c : TaskEquivClass_t)
    (rest : List TaskEquivClass_t)
    (ht : m.task_map_ t = some td) (hc : GetTaskEquivClasses x m t = .ok (c :: rest))
    (hs : td.submit_time ≤ now1) (h12 : now1 ≤ now2) (h2 : now2 < 2 ^ 64)
    (hw : x.WAIT_TIME_MULTIPLIER * ((now2 - td.submit_time) / 100000) < 2 ^ 63)
    (ha : 100 * m.knowledge_base_.GetAvgRuntimeForTEC c < 2 ^ 63) :
    ∃ u1 u2 : Cost_t, TaskToUnscheduledAggCost x m now1 t = .ok u1 ∧
      TaskToUnscheduledAggCost x m now2 t = .ok u2 ∧ u1 ≤ u2 := by
  have hc2 := GetTaskEquivClasses_of_some x m t td ht
  rw [hc2] at hc
  have hceq : toU64 (x.hash_combine 0 td.binary) = c := by
    injection hc with hc
    injection hc with hc _
  have hw1 : wait_time_centamillis now1 td = (now1 - td.submit_time) / 100000 := by
    unfold wait_time_centamillis
    simp only [subU64_of_le hs (by omega : now1 < 2 ^ 64)]
  have hw2 : wait_time_centamillis now2 td = (now2 - td.submit_time) / 100000 := by
    unfold wait_time_centamillis
    simp only [subU64_of_le (by omega : td.submit_time ≤ now2) h2]
  have hww : (now1 - td.submit_time) / 100000 ≤ (now2 - td.submit_time) / 100000 :=
    Nat.div_le_div_right (by omega)
  have hmul : x.WAIT_TIME_MULTIPLIER * ((now1 - td.submit_time) / 100000) ≤
      x.WAIT_TIME_MULTIPLIER * ((now2 - td.submit_time) / 100000) :=
    Nat.mul_le_mul_left _ hww
  have e1 := TaskToUnscheduledAggCost_of_some x m now1 t td ht
  have e2 := TaskToUnscheduledAggCost_of_some x m now2 t td ht
  rw [hceq, mulU64_eq, avg_runtime_scaled_eq] at e1 e2
  rw [hw1, toCost_max_of_lt (by omega) ha] at e1
  rw [hw2, toCost_max_of_lt hw ha] at e2
  refine ⟨_, _, e1, e2, ?_⟩
  exact_mod_cast max_le_max hmul (le_refl _)

/-- Witness of C19 in the scenario of the spec: at the submission, and 700 s
later. -/
theorem C19_monotone_in_time_witness :
    ∃ u1 u2 : Cost_t,
      TaskToUnscheduledAggCost sampleExternals scenarioModel 1000000 1 = .ok u1 ∧
      TaskToUnscheduledAggCost sampleExternals scenarioModel 701000000 1 = .ok u2 ∧
      u1 ≤ u2 :=
  C19_monotone_in_time sampleExternals scenarioModel 1000000 701000000 1 scenarioT1
    (toU64 (sampleHashCombine 0 "sleep")) []
    (by rfl) (GetTaskEquivClasses_of_some sampleExternals scenarioModel 1 scenarioT1 (by rfl))
    (by decide) (by decide) (by norm_num) (by decide)
    (by
      have hkb : scenarioModel.knowledge_base_.GetAvgRuntimeForTEC
          (toU64 (sampleHashCombine 0 "sleep")) = 50 := by
        simp [scenarioModel, scenarioKB]
      rw [hkb]; norm_num)

/-- The `uint64_t` difference of a timestamp and a later submit time. -/
theorem subU64_of_lt {a b : Nat} (hab : a < b) (hb : b < 2 ^ 64) :
    subU64 a b = 2 ^ 64 - (b - a) := by
  unfold subU64 toU64; omega

/-- C20: for a task with a descriptor whose submit time is after the
timestamp, the elapsed time is the difference modulo `2 ^ 64`, the scaled
wait is that number divided by 100000, and the cost is the maximum of
`WAIT_TIME_MULTIPLIER` times that wait and 100 times the average runtime, both
on `uint64_t`, returned as `Cost_t`. -/
theorem C20_wrapped_wait (x : Externals) (m : SJFCostModel) (now : Nat)
    (t : TaskID_t) (td : TaskDescriptor)
    (ht : m.task_map_ t = some td) (hlt : now < td.submit_time)
    (hs : td.submit_time < 2 ^ 64) :
    subU64 now td.submit_time =
      (((now : Int) - (td.submit_time : Int)) % 2 ^ 64).toNat ∧
    subU64 now td.submit_time = 2 ^ 64 - (td.submit_time - now) ∧
    wait_time_centamillis now td =
      (((now : Int) - (td.submit_time : Int)) % 2 ^ 64).toNat / 100000 ∧
    ∃ (c : TaskEquivClass_t) (rest : List TaskEquivClass_t),
      GetTaskEquivClasses x m t = .ok (c :: rest) ∧
      TaskToUnscheduledAggCost x m now t =
        .ok (toCost (max
          ((x.WAIT_TIME_MULTIPLIER *
            ((((now : Int) - (td.submit_time : Int)) % 2 ^ 64).toNat / 100000)) % 2 ^ 64)
          ((100 * m.knowledge_base_.GetAvgRuntimeForTEC c) % 2 ^ 64))) := by
  have hsub := subU64_of_lt hlt hs
  have hint : subU64 now td.submit_time =
      (((now : Int) - (td.submit_time : Int)) % 2 ^ 64).toNat := by
    rw [hsub]; omega
  have hwait : wait_time_centamillis now td =
      (((now : Int) - (td.submit_time : Int)) % 2 ^ 64).toNat / 100000 := by
    unfold wait_time_centamillis
    simp only [hint]
  have hu := TaskToUnscheduledAggCost_of_some x m now t td ht
  rw [hwait, mulU64_eq, avg_runtime_scaled_eq] at hu
  exact ⟨hint, hsub, hwait, _, [], GetTaskEquivClasses_of_some x m t td ht, hu⟩

/-- Witness of C20 in the scenario of the spec, queried one microsecond
before the submit time: the elapsed time is `2 ^ 64 - 1`, the scaled wait is
184467440737095, and with multiplier 1 that is the cost, where a wait of zero
would give the scaled average runtime 5000. -/
theorem C20_wrapped_wait_witness :
    999999 < scenarioT1.submit_time ∧
    subU64 999999 scenarioT1.submit_time = 2 ^ 64 - 1 ∧
    wait_time_centamillis 999999 scenarioT1 = 184467440737095 ∧
    TaskToUnscheduledAggCost sampleExternals scenarioModel 999999 1 =
      .ok 184467440737095 ∧
    TaskToUnscheduledAggCost sampleExternals scenarioModel 1000000 1 = .ok 5000 := by
  obtain ⟨_, hsub, _, c, rest, hc, hu⟩ :=
    C20_wrapped_wait sampleExternals scenarioModel 999999 1 scenarioT1
      (by rfl) (by decide) (by decide)
  have hc2 : GetTaskEquivClasses sampleExternals scenarioModel 1 =
      .ok [toU64 (sampleHashCombine 0 "sleep")] :=
    GetTaskEquivClasses_of_some sampleExternals scenarioModel 1 scenarioT1 (by rfl)
  rw [hc2] at hc
  have hceq : c = toU64 (sampleHashCombine 0 "sleep") := by
    injection hc with hc
    injection hc with hc _
    exact hc.symm
  subst hceq
  have hkb : scenarioModel.knowledge_base_.GetAvgRuntimeForTEC
      (toU64 (sampleHashCombine 0 "sleep")) = 50 := by
    simp [scenarioModel, scenarioKB]
  rw [hkb] at hu
  have hkb2 : scenarioKB.GetAvgRuntimeForTEC (toU64 (sampleHashCombine 0 "sleep")) = 50 := by
    simp [scenarioKB]
  have ha : avg_runtime_scaled scenarioKB (toU64 (sampleHashCombine 0 "sleep")) = 5000 := by
    rw [avg_runtime_scaled_eq, hkb2]; decide
  have h0 : TaskToUnscheduledAggCost sampleExternals scenarioModel 1000000 1 =
      .ok (toCost (max (mulU64 1 (wait_time_centamillis 1000000 scenarioT1))
        (avg_runtime_scaled scenarioKB (toU64 (sampleHashCombine 0 "sleep"))))) :=
    TaskToUnscheduledAggCost_of_some sampleExternals scenarioModel 1000000 1
      scenarioT1 (by rfl)
  rw [ha] at h0
  refine ⟨by decide, ?_, by decide, ?_, ?_⟩
  · rw [hsub]; decide
  · rw [hu]; rfl
  · rw [h0]; rfl

end firmament
